import Mathlib

/-!
Shallow embedding of the DreamScaler USB controller firmware
(`ds_usb_controller.ino`): the serial protocol engine that mutates an
addressable RGBW pixel buffer.

The firmware global variables (`ledCount`, `ledPin`, `stripInitialized`,
the SK6812 pixel buffer, `globalBrightness`, `cmdBufferPos`, `streamMode`,
`streamIndex`, `streamCount`) become one `EngineState` record; each
`cmdXxx()` handler becomes a function from the state and the list of
serial input bytes to the new state, the remaining input, and the list of
emitted responses.  `waitForBytes(n, t)` succeeding is modelled as the
input list holding at least `n` bytes; failing emits the Timeout error.
A hardware `sync()` is counted in the `commits` field.  Machine bytes are
naturals reduced mod 256 at each read.
-/

namespace DreamScaler

/-- A four-channel SK6812 color value; each channel is an 8-bit byte. -/
structure RGBW where
  r : Nat
  g : Nat
  b : Nat
  w : Nat
deriving Repr, DecidableEq

/-- The all-zero (off) color, `{0, 0, 0, 0}` in the firmware. -/
def RGBW.off : RGBW := ⟨0, 0, 0, 0⟩

/-- All four channels are genuine bytes. -/
def RGBW.wf (c : RGBW) : Prop := c.r < 256 ∧ c.g < 256 ∧ c.b < 256 ∧ c.w < 256

instance (c : RGBW) : Decidable c.wf := by unfold RGBW.wf; infer_instance

/-- The wire bytes of a color, in the RGBW order every command uses. -/
def RGBW.pl (c : RGBW) : List Nat := [c.r, c.g, c.b, c.w]

/-- Error codes of the firmware `ErrorCode` enum. -/
inductive ECode where
  | bufferOverflow
  | invalidParam
  | notInitialized
  | outOfRange
  | timeout
deriving Repr, DecidableEq

/-- Responses the firmware can emit on the serial link. -/
inductive Resp where
  | ok
  | pong
  | unknownCmd
  | err (c : ECode)
  | info (version count pin : Nat) (inited : Bool) (bright : Nat)
deriving Repr, DecidableEq

/-- The firmware global mutable state.  `strip` is the SK6812 buffer
allocated by the most recent `initializeStrip` (its length is the real
capacity), `commits` counts `ledStrip->sync()` calls. -/
structure EngineState where
  ledCount : Nat
  ledPin : Nat
  stripInitialized : Bool
  strip : List RGBW
  commits : Nat
  globalBrightness : Nat
  cmdBufferPos : Nat
  streamMode : Bool
  streamIndex : Nat
  streamCount : Nat
deriving Repr, DecidableEq

def DEFAULT_LED_COUNT : Nat := 107
def DEFAULT_LED_PIN : Nat := 6
def PROTOCOL_VERSION : Nat := 11

/-- Result of one command: new state, remaining serial input, responses. -/
abbrev CmdResult := EngineState × List Nat × List Resp

/-- The `i`-th byte of the serial input (bytes are 8-bit values). -/
def byteAt (inp : List Nat) (i : Nat) : Nat := (inp[i]?.getD 0) % 256

/-- A big-endian 16-bit value read as two consecutive bytes, as in
`(Serial.read() << 8) | Serial.read()`. -/
def word16 (inp : List Nat) (i : Nat) : Nat := byteAt inp i * 256 + byteAt inp (i + 1)

/-- One channel scaled: `(v * brightness) >> 8`, i.e. `⌊v*b/256⌋`. -/
def scale8 (v b : Nat) : Nat := v * b / 256

/-- `applyBrightness`: scales every channel unless brightness is 255. -/
def applyBrightness (bright : Nat) (c : RGBW) : RGBW :=
  if bright < 255 then
    ⟨scale8 c.r bright, scale8 c.g bright, scale8 c.b bright, scale8 c.w bright⟩
  else c

/-- `initializeStrip(count, pin)`: frees the old strip, allocates a fresh
zeroed buffer of `count` pixels, syncs it, and marks the store initialized.
The stream session variables are untouched, exactly as in the source. -/
def initializeStrip (count pin : Nat) (s : EngineState) : EngineState :=
  { s with
    ledCount := count
    ledPin := pin
    strip := List.replicate count RGBW.off
    commits := s.commits + 1
    stripInitialized := true }

/-- `cmdSetLedCount`: two payload bytes; accepts `1 ≤ count ≤ 1000` and
stores the new target count without reallocating the strip. -/
def cmdSetLedCount (s : EngineState) (inp : List Nat) : CmdResult :=
  if 2 ≤ inp.length then
    let count := word16 inp 0
    if 0 < count ∧ count ≤ 1000 then
      ({ s with ledCount := count }, inp.drop 2, [.ok])
    else (s, inp.drop 2, [.err .invalidParam])
  else (s, inp, [.err .timeout])

/-- `cmdSetLedPin`: one payload byte; accepts `pin < 20`. -/
def cmdSetLedPin (s : EngineState) (inp : List Nat) : CmdResult :=
  if 1 ≤ inp.length then
    let pin := byteAt inp 0
    if pin < 20 then ({ s with ledPin := pin }, inp.drop 1, [.ok])
    else (s, inp.drop 1, [.err .invalidParam])
  else (s, inp, [.err .timeout])

/-- `cmdSetPixelRGBW`: 2-byte index + 4-byte color; brightness is applied,
then the index is bounds-checked against `ledCount`; on success the pixel
is written and the strip synced. -/
def cmdSetPixelRGBW (s : EngineState) (inp : List Nat) : CmdResult :=
  if s.stripInitialized = true then
    if 6 ≤ inp.length then
      let index := word16 inp 0
      let color := applyBrightness s.globalBrightness
        ⟨byteAt inp 2, byteAt inp 3, byteAt inp 4, byteAt inp 5⟩
      if index < s.ledCount then
        ({ s with strip := s.strip.set index color, commits := s.commits + 1 },
         inp.drop 6, [.ok])
      else (s, inp.drop 6, [.err .outOfRange])
    else (s, inp, [.err .timeout])
  else (s, inp, [.err .notInitialized])

/-- `cmdSetPixelRGB`: 2-byte index + 3-byte color, white forced to 0. -/
def cmdSetPixelRGB (s : EngineState) (inp : List Nat) : CmdResult :=
  if s.stripInitialized = true then
    if 5 ≤ inp.length then
      let index := word16 inp 0
      let color := applyBrightness s.globalBrightness
        ⟨byteAt inp 2, byteAt inp 3, byteAt inp 4, 0⟩
      if index < s.ledCount then
        ({ s with strip := s.strip.set index color, commits := s.commits + 1 },
         inp.drop 5, [.ok])
      else (s, inp.drop 5, [.err .outOfRange])
    else (s, inp, [.err .timeout])
  else (s, inp, [.err .notInitialized])

/-- `cmdSetPixelW`: 2-byte index + 1-byte white, RGB forced to 0. -/
def cmdSetPixelW (s : EngineState) (inp : List Nat) : CmdResult :=
  if s.stripInitialized = true then
    if 3 ≤ inp.length then
      let index := word16 inp 0
      let color := applyBrightness s.globalBrightness ⟨0, 0, 0, byteAt inp 2⟩
      if index < s.ledCount then
        ({ s with strip := s.strip.set index color, commits := s.commits + 1 },
         inp.drop 3, [.ok])
      else (s, inp.drop 3, [.err .outOfRange])
    else (s, inp, [.err .timeout])
  else (s, inp, [.err .notInitialized])

/-- Writes the same color at indices `i, i+1, ...` for `n` steps, the
`for` loop of `cmdSetRangeRGBW` / `cmdSetAllRGBW` / `cmdClearAll`. -/
def fillLoop (c : RGBW) : Nat → Nat → List RGBW → List RGBW
  | _, 0, strip => strip
  | i, n + 1, strip => fillLoop c (i + 1) n (strip.set i c)

/-- `cmdSetRangeRGBW`: start, end, color; requires
`start < ledCount ∧ end < ledCount ∧ start ≤ end`, fills inclusively. -/
def cmdSetRangeRGBW (s : EngineState) (inp : List Nat) : CmdResult :=
  if s.stripInitialized = true then
    if 8 ≤ inp.length then
      let start := word16 inp 0
      let stop := word16 inp 2
      let color := applyBrightness s.globalBrightness
        ⟨byteAt inp 4, byteAt inp 5, byteAt inp 6, byteAt inp 7⟩
      if start < s.ledCount ∧ stop < s.ledCount ∧ start ≤ stop then
        ({ s with strip := fillLoop color start (stop + 1 - start) s.strip,
                  commits := s.commits + 1 }, inp.drop 8, [.ok])
      else (s, inp.drop 8, [.err .outOfRange])
    else (s, inp, [.err .timeout])
  else (s, inp, [.err .notInitialized])

/-- `cmdSetAllRGBW`: fills indices `0 .. ledCount-1` with one color. -/
def cmdSetAllRGBW (s : EngineState) (inp : List Nat) : CmdResult :=
  if s.stripInitialized = true then
    if 4 ≤ inp.length then
      let color := applyBrightness s.globalBrightness
        ⟨byteAt inp 0, byteAt inp 1, byteAt inp 2, byteAt inp 3⟩
      ({ s with strip := fillLoop color 0 s.ledCount s.strip,
                commits := s.commits + 1 }, inp.drop 4, [.ok])
    else (s, inp, [.err .timeout])
  else (s, inp, [.err .notInitialized])

/-- `cmdClearAll`: zeroes indices `0 .. ledCount-1` and syncs. -/
def cmdClearAll (s : EngineState) (inp : List Nat) : CmdResult :=
  if s.stripInitialized = true then
    ({ s with strip := fillLoop RGBW.off 0 s.ledCount s.strip,
              commits := s.commits + 1 }, inp, [.ok])
  else (s, inp, [.err .notInitialized])

/-- `cmdBufferStart`: resets the buffer cursor and acknowledges.  Note:
the source performs no `stripInitialized` check here. -/
def cmdBufferStart (s : EngineState) (inp : List Nat) : CmdResult :=
  ({ s with cmdBufferPos := 0 }, inp, [.ok])

/-- `cmdBufferPixel`: like `cmdSetPixelRGBW` but without the sync. -/
def cmdBufferPixel (s : EngineState) (inp : List Nat) : CmdResult :=
  if s.stripInitialized = true then
    if 6 ≤ inp.length then
      let index := word16 inp 0
      let color := applyBrightness s.globalBrightness
        ⟨byteAt inp 2, byteAt inp 3, byteAt inp 4, byteAt inp 5⟩
      if index < s.ledCount then
        ({ s with strip := s.strip.set index color }, inp.drop 6, [.ok])
      else (s, inp.drop 6, [.err .outOfRange])
    else (s, inp, [.err .timeout])
  else (s, inp, [.err .notInitialized])

/-- `cmdBufferEnd`: syncs and resets the buffer cursor. -/
def cmdBufferEnd (s : EngineState) (inp : List Nat) : CmdResult :=
  if s.stripInitialized = true then
    ({ s with commits := s.commits + 1, cmdBufferPos := 0 }, inp, [.ok])
  else (s, inp, [.err .notInitialized])

/-- `cmdStreamStart`: 2-byte count; opens a stream session with cursor 0.
The count is not validated against the store capacity. -/
def cmdStreamStart (s : EngineState) (inp : List Nat) : CmdResult :=
  if s.stripInitialized = true then
    if 2 ≤ inp.length then
      ({ s with streamCount := word16 inp 0, streamIndex := 0, streamMode := true },
       inp.drop 2, [.ok])
    else (s, inp, [.err .timeout])
  else (s, inp, [.err .notInitialized])

/-- `cmdStreamData`: 4-byte color; requires an active stream, writes at the
cursor when `cursor < ledCount ∧ cursor < streamCount`, then increments the
cursor.  No sync. -/
def cmdStreamData (s : EngineState) (inp : List Nat) : CmdResult :=
  if s.stripInitialized = true ∧ s.streamMode = true then
    if 4 ≤ inp.length then
      let color := applyBrightness s.globalBrightness
        ⟨byteAt inp 0, byteAt inp 1, byteAt inp 2, byteAt inp 3⟩
      if s.streamIndex < s.ledCount ∧ s.streamIndex < s.streamCount then
        ({ s with strip := s.strip.set s.streamIndex color,
                  streamIndex := s.streamIndex + 1 }, inp.drop 4, [.ok])
      else (s, inp.drop 4, [.err .outOfRange])
    else (s, inp, [.err .timeout])
  else (s, inp, [.err .notInitialized])

/-- `cmdStreamEnd`: syncs and closes the stream session. -/
def cmdStreamEnd (s : EngineState) (inp : List Nat) : CmdResult :=
  if s.stripInitialized = true then
    ({ s with commits := s.commits + 1, streamMode := false,
              streamIndex := 0, streamCount := 0 }, inp, [.ok])
  else (s, inp, [.err .notInitialized])

/-- The pixel-reading loop of `cmdBulkUpdate`: consumes `n` RGBW
quadruples writing them at indices `i, i+1, ...`; returns whether it ran
to completion, the (possibly partially updated) strip, and the remaining
input.  A step with fewer than 4 bytes available is the per-quadruple
timeout. -/
def bulkLoop (bright : Nat) : Nat → Nat → List RGBW → List Nat →
    Bool × List RGBW × List Nat
  | _, 0, strip, inp => (true, strip, inp)
  | i, n + 1, strip, inp =>
    if 4 ≤ inp.length then
      bulkLoop bright (i + 1) n
        (strip.set i (applyBrightness bright
          ⟨byteAt inp 0, byteAt inp 1, byteAt inp 2, byteAt inp 3⟩))
        (inp.drop 4)
    else (false, strip, inp)

/-- `cmdBulkUpdate`: 2-byte count; rejects `count > ledCount` with
OutOfRange before touching the pixel payload, otherwise acknowledges,
consumes `count` quadruples sequentially from index 0, syncs once, and
acknowledges again.  A mid-transfer timeout leaves the partial writes and
reports Timeout after the early acknowledgement. -/
def cmdBulkUpdate (s : EngineState) (inp : List Nat) : CmdResult :=
  if s.stripInitialized = true then
    if 2 ≤ inp.length then
      let count := word16 inp 0
      if s.ledCount < count then (s, inp.drop 2, [.err .outOfRange])
      else
        let res := bulkLoop s.globalBrightness 0 count s.strip (inp.drop 2)
        if res.1 = true then
          ({ s with strip := res.2.1, commits := s.commits + 1 },
           res.2.2, [.ok, .ok])
        else ({ s with strip := res.2.1 }, res.2.2, [.ok, .err .timeout])
    else (s, inp, [.err .timeout])
  else (s, inp, [.err .notInitialized])

/-- The Arduino `map(x, in_min, in_max, out_min, out_max)` helper:
`(x - in_min) * (out_max - out_min) / (in_max - in_min) + out_min` in
C `long` arithmetic, whose division truncates toward zero. -/
def mapArduino (x inMin inMax outMin outMax : Int) : Int :=
  Int.tdiv ((x - inMin) * (outMax - outMin)) (inMax - inMin) + outMin

/-- Conversion of a C `long` to `uint8_t` (reduction mod 256). -/
def toByte (v : Int) : Nat := (v % 256).toNat

/-- The color written by `cmdFillGradient` at offset `i` of a span of
`steps` (the `steps > 0` branch interpolates with `map`, else the color
is `color1` verbatim). -/
def gradColor (c1 c2 : RGBW) (i steps : Nat) : RGBW :=
  if 0 < steps then
    ⟨toByte (mapArduino i 0 steps c1.r c2.r),
     toByte (mapArduino i 0 steps c1.g c2.g),
     toByte (mapArduino i 0 steps c1.b c2.b),
     toByte (mapArduino i 0 steps c1.w c2.w)⟩
  else c1

/-- The write loop of `cmdFillGradient`: `n` iterations starting at
offset `i`, writing the brightness-scaled interpolated color at
`start + offset`. -/
def gradWrite (bright : Nat) (c1 c2 : RGBW) (start steps : Nat) :
    Nat → Nat → List RGBW → List RGBW
  | _, 0, strip => strip
  | i, n + 1, strip =>
    gradWrite bright c1 c2 start steps (i + 1) n
      (strip.set (start + i) (applyBrightness bright (gradColor c1 c2 i steps)))

/-- `cmdFillGradient`: start, end, two colors; requires
`start < ledCount ∧ end < ledCount ∧ start ≤ end`, writes the interpolated
(then brightness-scaled) colors over the inclusive range and syncs. -/
def cmdFillGradient (s : EngineState) (inp : List Nat) : CmdResult :=
  if s.stripInitialized = true then
    if 12 ≤ inp.length then
      let start := word16 inp 0
      let stop := word16 inp 2
      let c1 : RGBW := ⟨byteAt inp 4, byteAt inp 5, byteAt inp 6, byteAt inp 7⟩
      let c2 : RGBW := ⟨byteAt inp 8, byteAt inp 9, byteAt inp 10, byteAt inp 11⟩
      if start < s.ledCount ∧ stop < s.ledCount ∧ start ≤ stop then
        ({ s with
           strip := gradWrite s.globalBrightness c1 c2 start (stop - start)
             0 (stop - start + 1) s.strip,
           commits := s.commits + 1 }, inp.drop 12, [.ok])
      else (s, inp.drop 12, [.err .outOfRange])
    else (s, inp, [.err .timeout])
  else (s, inp, [.err .notInitialized])

/-- `cmdSetBrightness`: one byte, stored unconditionally.  Note: the
source performs no `stripInitialized` check here. -/
def cmdSetBrightness (s : EngineState) (inp : List Nat) : CmdResult :=
  if 1 ≤ inp.length then
    ({ s with globalBrightness := byteAt inp 0 }, inp.drop 1, [.ok])
  else (s, inp, [.err .timeout])

/-- `processCommand(cmd)`: the dispatch switch of the firmware. -/
def processCommand (cmd : Nat) (s : EngineState) (inp : List Nat) : CmdResult :=
  if cmd = 0x01 then (s, inp, [.pong])
  else if cmd = 0x02 then
    (s, inp, [.info PROTOCOL_VERSION s.ledCount s.ledPin s.stripInitialized
                s.globalBrightness])
  else if cmd = 0x03 then
    ({ initializeStrip DEFAULT_LED_COUNT DEFAULT_LED_PIN s with
       globalBrightness := 255 }, inp, [.ok])
  else if cmd = 0x10 then cmdSetLedCount s inp
  else if cmd = 0x11 then cmdSetLedPin s inp
  else if cmd = 0x12 then (initializeStrip s.ledCount s.ledPin s, inp, [.ok])
  else if cmd = 0x20 then cmdSetPixelRGBW s inp
  else if cmd = 0x21 then cmdSetPixelRGB s inp
  else if cmd = 0x22 then cmdSetPixelW s inp
  else if cmd = 0x30 then cmdSetRangeRGBW s inp
  else if cmd = 0x31 then cmdSetAllRGBW s inp
  else if cmd = 0x32 then cmdClearAll s inp
  else if cmd = 0x40 then cmdBufferStart s inp
  else if cmd = 0x41 then cmdBufferPixel s inp
  else if cmd = 0x42 then cmdBufferEnd s inp
  else if cmd = 0x50 then cmdStreamStart s inp
  else if cmd = 0x51 then cmdStreamData s inp
  else if cmd = 0x52 then cmdStreamEnd s inp
  else if cmd = 0x55 then cmdBulkUpdate s inp
  else if cmd = 0x60 then
    (if s.stripInitialized = true then
      ({ s with commits := s.commits + 1 }, inp, [.ok])
    else (s, inp, [.err .notInitialized]))
  else if cmd = 0x70 then cmdFillGradient s inp
  else if cmd = 0x71 then cmdSetBrightness s inp
  else (s, inp, [.unknownCmd])

/-- Runs a list of commands, each with its own payload bytes, collecting
all responses in order. -/
def runSeq (s : EngineState) : List (Nat × List Nat) → EngineState × List Resp
  | [] => (s, [])
  | (c, p) :: rest =>
    let r := processCommand c s p
    let rr := runSeq r.1 rest
    (rr.1, r.2.2 ++ rr.2)

/-- The global state at power-on, before `setup()` runs
`initializeStrip`: no strip allocated, store uninitialized. -/
def freshState : EngineState :=
  { ledCount := DEFAULT_LED_COUNT, ledPin := DEFAULT_LED_PIN,
    stripInitialized := false, strip := [], commits := 0,
    globalBrightness := 255, cmdBufferPos := 0,
    streamMode := false, streamIndex := 0, streamCount := 0 }

/-- A small initialized state used to instantiate general theorems. -/
def testState : EngineState :=
  { ledCount := 8, ledPin := 6, stripInitialized := true,
    strip := List.replicate 8 RGBW.off, commits := 0,
    globalBrightness := 255, cmdBufferPos := 0,
    streamMode := false, streamIndex := 0, streamCount := 0 }

/-! Basic byte-level lemmas. -/

lemma byteAt_cons_zero (a : Nat) (l : List Nat) : byteAt (a :: l) 0 = a % 256 := by
  simp [byteAt]

lemma byteAt_cons_succ (a : Nat) (l : List Nat) (i : Nat) :
    byteAt (a :: l) (i + 1) = byteAt l i := by
  simp [byteAt]

lemma byteAt_drop (l : List Nat) (n i : Nat) : byteAt (l.drop n) i = byteAt l (n + i) := by
  simp [byteAt, List.getElem?_drop]

lemma word16_encode (n : Nat) (h : n < 65536) (rest : List Nat) :
    word16 (n / 256 :: n % 256 :: rest) 0 = n := by
  simp [word16, byteAt]
  omega

/-- C8: from every engine state, the reset command restores the default
LED count and pin, sets brightness to 255, zeroes (and reallocates) all
pixels, marks the store initialized, commits the cleared buffer, and
acknowledges with OK, consuming no payload. -/
theorem c8_reset (s : EngineState) (inp : List Nat) :
    processCommand 0x03 s inp =
      ({ s with ledCount := DEFAULT_LED_COUNT, ledPin := DEFAULT_LED_PIN,
                strip := List.replicate DEFAULT_LED_COUNT RGBW.off,
                commits := s.commits + 1, stripInitialized := true,
                globalBrightness := 255 }, inp, [.ok]) := rfl

/-- C1 counterexample: with the store uninitialized (the power-on state),
`set_brightness` (0x71) answers OK and mutates the global brightness, and
`buffer_start` (0x40) answers OK — neither responds NotInitialized as the
claim requires. -/
theorem c1_cex :
    freshState.stripInitialized = false ∧
    freshState.globalBrightness = 255 ∧
    (processCommand 0x71 freshState [100]).2.2 = [Resp.ok] ∧
    (processCommand 0x71 freshState [100]).1.globalBrightness = 100 ∧
    (processCommand 0x40 freshState []).2.2 = [Resp.ok] := by decide

/-- C1 (amended): with the store uninitialized, every command among
set_pixel (all three variants), set_range, set_all, clear_all,
buffer_pixel, buffer_end, stream_start, stream_data, stream_end,
bulk_update, sync and fill_gradient responds NotInitialized and leaves
the whole engine state and the input untouched; `buffer_start` and
`set_brightness`, however, do not require initialization: buffer_start
resets the buffer cursor and set_brightness stores the new brightness,
both answering OK. -/
theorem c1_not_initialized (s : EngineState) (hs : s.stripInitialized = false) :
    (∀ cmd ∈ ([0x20, 0x21, 0x22, 0x30, 0x31, 0x32, 0x41, 0x42, 0x50, 0x51, 0x52,
               0x55, 0x60, 0x70] : List Nat), ∀ inp,
        processCommand cmd s inp = (s, inp, [.err .notInitialized])) ∧
    (∀ inp, processCommand 0x40 s inp = ({ s with cmdBufferPos := 0 }, inp, [.ok])) ∧
    (∀ b rest, processCommand 0x71 s (b :: rest) =
        ({ s with globalBrightness := b % 256 }, rest, [.ok])) := by
  refine ⟨?_, ?_, ?_⟩
  · intro cmd hc inp
    fin_cases hc <;>
      simp [processCommand, cmdSetPixelRGBW, cmdSetPixelRGB, cmdSetPixelW,
        cmdSetRangeRGBW, cmdSetAllRGBW, cmdClearAll, cmdBufferPixel, cmdBufferEnd,
        cmdStreamStart, cmdStreamData, cmdStreamEnd, cmdBulkUpdate,
        cmdFillGradient, hs]
  · intro inp
    simp [processCommand, cmdBufferStart]
  · intro b rest
    simp [processCommand, cmdSetBrightness, byteAt]

/-- Closed instance of `c1_not_initialized` at the power-on state. -/
theorem c1_witness :
    processCommand 0x20 freshState [0, 0, 1, 2, 3, 4] =
      (freshState, [0, 0, 1, 2, 3, 4], [.err .notInitialized]) :=
  (c1_not_initialized freshState rfl).1 0x20 (by decide) [0, 0, 1, 2, 3, 4]

/-- C9: after initializing the strip with 3 pixels, a successful
`set_led_count 10` (without a subsequent `init_strip`) leaves the
allocated strip at capacity 3 while the target count becomes 10, and
`set_pixel` at index 5 — beyond the allocated capacity but below the new
count — is accepted with OK: the bounds check compares against the
`ledCount` variable, not the allocated capacity. -/
theorem c9_count_capacity_mismatch :
    (processCommand 0x10 (initializeStrip 3 6 freshState) [0, 10]).2.2 = [Resp.ok] ∧
    (processCommand 0x10 (initializeStrip 3 6 freshState) [0, 10]).1.ledCount = 10 ∧
    (processCommand 0x10 (initializeStrip 3 6 freshState) [0, 10]).1.strip.length = 3 ∧
    (processCommand 0x20
        (processCommand 0x10 (initializeStrip 3 6 freshState) [0, 10]).1
        [0, 5, 9, 9, 9, 9]).2.2 = [Resp.ok] := by decide

/-- C2: for brightness `b < 255` a pixel write stores `⌊v*b/256⌋` on every
channel (shown on the set_pixel path from wire bytes to the store); at
`b = 255` no scaling is applied at all, so the wire bytes are stored
verbatim; in particular brightness 255 leaves channel values 0, 127 and
255 unchanged and brightness 128 maps 255 to 127; and the scale is applied
at the moment of the write only — the set_brightness command itself never
touches stored pixels. -/
theorem c2_brightness (s : EngineState) (c : RGBW)
    (hinit : s.stripInitialized = true) (hpos : 0 < s.strip.length)
    (hcnt : 0 < s.ledCount) (hc : c.wf) :
    (s.globalBrightness < 255 →
      (processCommand 0x20 s [0, 0, c.r, c.g, c.b, c.w]).1.strip[0]? =
        some ⟨c.r * s.globalBrightness / 256, c.g * s.globalBrightness / 256,
              c.b * s.globalBrightness / 256, c.w * s.globalBrightness / 256⟩) ∧
    (s.globalBrightness = 255 →
      (processCommand 0x20 s [0, 0, c.r, c.g, c.b, c.w]).1.strip[0]? = some c) ∧
    applyBrightness 255 ⟨0, 127, 255, 0⟩ = ⟨0, 127, 255, 0⟩ ∧
    applyBrightness 128 ⟨255, 255, 255, 255⟩ = ⟨127, 127, 127, 127⟩ ∧
    (∀ t inp, (processCommand 0x71 t inp).1.strip = t.strip) := by
  obtain ⟨hr, hg, hb, hw⟩ := hc
  have hstep : processCommand 0x20 s [0, 0, c.r, c.g, c.b, c.w] =
      ({ s with strip := s.strip.set 0 (applyBrightness s.globalBrightness c),
                commits := s.commits + 1 }, [], [.ok]) := by
    simp [processCommand, cmdSetPixelRGBW, word16, byteAt, hinit, hcnt,
      Nat.mod_eq_of_lt, hr, hg, hb, hw]
  refine ⟨?_, ?_, by decide, by decide, ?_⟩
  · intro hlt
    simp [hstep, applyBrightness, scale8, hlt, List.getElem?_set_self hpos]
  · intro heq
    simp [hstep, applyBrightness, heq, List.getElem?_set_self hpos]
  · intro t inp
    simp only [processCommand, cmdSetBrightness]
    norm_num
    split_ifs <;> rfl

/-- Closed instance of `c2_brightness` at a small initialized state. -/
theorem c2_witness :
    ((testState.globalBrightness < 255 →
      (processCommand 0x20 testState [0, 0, 10, 20, 30, 40]).1.strip[0]? =
        some ⟨10 * testState.globalBrightness / 256, 20 * testState.globalBrightness / 256,
              30 * testState.globalBrightness / 256, 40 * testState.globalBrightness / 256⟩) ∧
    (testState.globalBrightness = 255 →
      (processCommand 0x20 testState [0, 0, 10, 20, 30, 40]).1.strip[0]? =
        some ⟨10, 20, 30, 40⟩) ∧
    applyBrightness 255 ⟨0, 127, 255, 0⟩ = ⟨0, 127, 255, 0⟩ ∧
    applyBrightness 128 ⟨255, 255, 255, 255⟩ = ⟨127, 127, 127, 127⟩ ∧
    (∀ t inp, (processCommand 0x71 t inp).1.strip = t.strip)) :=
  c2_brightness testState ⟨10, 20, 30, 40⟩ rfl (by decide) (by decide) (by decide)

/-- C4: with the store initialized, every indexed write command given an
index at or beyond the current LED count — set_pixel in all three
variants, buffer_pixel, set_range and fill_gradient — answers OutOfRange
and leaves the entire engine state (in particular the pixel store)
unchanged; the index is rejected, never clamped. -/
theorem c4_out_of_range (s : EngineState) (index start stop r g b w r2 g2 b2 w2 : Nat)
    (hinit : s.stripInitialized = true)
    (hidx : s.ledCount ≤ index) (hi16 : index < 65536)
    (hstop : s.ledCount ≤ stop) (he16 : stop < 65536) :
    processCommand 0x20 s [index / 256, index % 256, r, g, b, w] =
      (s, [], [.err .outOfRange]) ∧
    processCommand 0x21 s [index / 256, index % 256, r, g, b] =
      (s, [], [.err .outOfRange]) ∧
    processCommand 0x22 s [index / 256, index % 256, w] =
      (s, [], [.err .outOfRange]) ∧
    processCommand 0x41 s [index / 256, index % 256, r, g, b, w] =
      (s, [], [.err .outOfRange]) ∧
    processCommand 0x30 s [start / 256, start % 256, stop / 256, stop % 256, r, g, b, w] =
      (s, [], [.err .outOfRange]) ∧
    processCommand 0x70 s
        [start / 256, start % 256, stop / 256, stop % 256, r, g, b, w, r2, g2, b2, w2] =
      (s, [], [.err .outOfRange]) := by
  refine ⟨?_, ?_, ?_, ?_, ?_, ?_⟩ <;>
    simp [processCommand, cmdSetPixelRGBW, cmdSetPixelRGB, cmdSetPixelW,
      cmdBufferPixel, cmdSetRangeRGBW, cmdFillGradient, word16, byteAt, hinit] <;>
    omega

/-- Closed instance of `c4_out_of_range` at a small initialized state. -/
theorem c4_witness :
    processCommand 0x20 testState [9 / 256, 9 % 256, 1, 2, 3, 4] =
      (testState, [], [.err .outOfRange]) :=
  (c4_out_of_range testState 9 0 9 1 2 3 4 5 6 7 8 rfl (by decide) (by decide)
    (by decide) (by decide)).1

/-! Success-path equations for the single-pixel commands and sync. -/

lemma sync_eq (s : EngineState) (inp : List Nat) (hinit : s.stripInitialized = true) :
    processCommand 0x60 s inp = ({ s with commits := s.commits + 1 }, inp, [.ok]) := by
  simp [processCommand, hinit]

lemma sync_strip (t : EngineState) (inp : List Nat) :
    (processCommand 0x60 t inp).1.strip = t.strip := by
  simp only [processCommand]
  norm_num
  split_ifs <;> rfl

lemma setPixelRGBW_eq (s : EngineState) (index r g b w : Nat)
    (hinit : s.stripInitialized = true) (hi16 : index < 65536)
    (hidx : index < s.ledCount) :
    processCommand 0x20 s [index / 256, index % 256, r, g, b, w] =
      ({ s with strip := s.strip.set index (applyBrightness s.globalBrightness
                  ⟨r % 256, g % 256, b % 256, w % 256⟩),
                commits := s.commits + 1 }, [], [.ok]) := by
  have e := word16_encode index hi16 [r, g, b, w]
  simp [processCommand, cmdSetPixelRGBW, e, hinit, hidx, byteAt]

lemma setPixelRGB_eq (s : EngineState) (index r g b : Nat)
    (hinit : s.stripInitialized = true) (hi16 : index < 65536)
    (hidx : index < s.ledCount) :
    processCommand 0x21 s [index / 256, index % 256, r, g, b] =
      ({ s with strip := s.strip.set index (applyBrightness s.globalBrightness
                  ⟨r % 256, g % 256, b % 256, 0⟩),
                commits := s.commits + 1 }, [], [.ok]) := by
  have e := word16_encode index hi16 [r, g, b]
  simp [processCommand, cmdSetPixelRGB, e, hinit, hidx, byteAt]

lemma setPixelW_eq (s : EngineState) (index w : Nat)
    (hinit : s.stripInitialized = true) (hi16 : index < 65536)
    (hidx : index < s.ledCount) :
    processCommand 0x22 s [index / 256, index % 256, w] =
      ({ s with strip := s.strip.set index (applyBrightness s.globalBrightness
                  ⟨0, 0, 0, w % 256⟩),
                commits := s.commits + 1 }, [], [.ok]) := by
  have e := word16_encode index hi16 [w]
  simp [processCommand, cmdSetPixelW, e, hinit, hidx, byteAt]

/-- C7: for a valid index, each set_pixel variant followed by sync leaves
the store value at that index equal to the brightness-scaled input color
— with the channels absent from the RGB and W-only variants set to zero —
and every other index unchanged. -/
theorem c7_set_pixel_sync (s : EngineState) (index : Nat) (c : RGBW)
    (hinit : s.stripInitialized = true) (hi16 : index < 65536)
    (hidx : index < s.ledCount) (hlen : index < s.strip.length) (hc : c.wf) :
    ((processCommand 0x60 (processCommand 0x20 s
          [index / 256, index % 256, c.r, c.g, c.b, c.w]).1 []).1.strip[index]? =
        some (applyBrightness s.globalBrightness ⟨c.r, c.g, c.b, c.w⟩) ∧
      ∀ j, j ≠ index →
        (processCommand 0x60 (processCommand 0x20 s
            [index / 256, index % 256, c.r, c.g, c.b, c.w]).1 []).1.strip[j]? =
          s.strip[j]?) ∧
    ((processCommand 0x60 (processCommand 0x21 s
          [index / 256, index % 256, c.r, c.g, c.b]).1 []).1.strip[index]? =
        some (applyBrightness s.globalBrightness ⟨c.r, c.g, c.b, 0⟩) ∧
      ∀ j, j ≠ index →
        (processCommand 0x60 (processCommand 0x21 s
            [index / 256, index % 256, c.r, c.g, c.b]).1 []).1.strip[j]? =
          s.strip[j]?) ∧
    ((processCommand 0x60 (processCommand 0x22 s
          [index / 256, index % 256, c.w]).1 []).1.strip[index]? =
        some (applyBrightness s.globalBrightness ⟨0, 0, 0, c.w⟩) ∧
      ∀ j, j ≠ index →
        (processCommand 0x60 (processCommand 0x22 s
            [index / 256, index % 256, c.w]).1 []).1.strip[j]? =
          s.strip[j]?) := by
  obtain ⟨hr, hg, hb, hw⟩ := hc
  simp only [sync_strip]
  rw [setPixelRGBW_eq s index c.r c.g c.b c.w hinit hi16 hidx,
    setPixelRGB_eq s index c.r c.g c.b hinit hi16 hidx,
    setPixelW_eq s index c.w hinit hi16 hidx]
  simp only [Nat.mod_eq_of_lt hr, Nat.mod_eq_of_lt hg, Nat.mod_eq_of_lt hb,
    Nat.mod_eq_of_lt hw]
  refine ⟨⟨?_, ?_⟩, ⟨?_, ?_⟩, ⟨?_, ?_⟩⟩
  · exact List.getElem?_set_self hlen
  · intro j hj
    exact List.getElem?_set_ne (by omega)
  · exact List.getElem?_set_self hlen
  · intro j hj
    exact List.getElem?_set_ne (by omega)
  · exact List.getElem?_set_self hlen
  · intro j hj
    exact List.getElem?_set_ne (by omega)

/-- Closed instance of `c7_set_pixel_sync` at a small initialized state. -/
theorem c7_witness :
    (processCommand 0x60 (processCommand 0x20 testState
        [2 / 256, 2 % 256, 10, 20, 30, 40]).1 []).1.strip[2]? =
      some (applyBrightness testState.globalBrightness ⟨10, 20, 30, 40⟩) :=
  (c7_set_pixel_sync testState 2 ⟨10, 20, 30, 40⟩ rfl (by decide) (by decide)
    (by decide) (by decide)).1.1

/-- Full characterization of the bulk-update pixel loop when every
quadruple has its bytes available: it completes, consumes exactly `4*n`
bytes, writes quadruple `k` (brightness-scaled) at index `i + k`, and
leaves every index outside `[i, i+n)` unchanged. -/
lemma bulkLoop_spec (bright : Nat) :
    ∀ (n i : Nat) (strip : List RGBW) (inp : List Nat), 4 * n ≤ inp.length →
      (bulkLoop bright i n strip inp).1 = true ∧
      (bulkLoop bright i n strip inp).2.2 = inp.drop (4 * n) ∧
      (∀ j, (j < i ∨ i + n ≤ j) → (bulkLoop bright i n strip inp).2.1[j]? = strip[j]?) ∧
      (∀ k, k < n → i + k < strip.length →
        (bulkLoop bright i n strip inp).2.1[i + k]? =
          some (applyBrightness bright
            ⟨byteAt inp (4 * k), byteAt inp (4 * k + 1),
             byteAt inp (4 * k + 2), byteAt inp (4 * k + 3)⟩)) := by
  intro n
  induction n with
  | zero =>
    intro i strip inp h
    simp [bulkLoop]
  | succ n ih =>
    intro i strip inp h
    have h4 : 4 ≤ inp.length := by omega
    have hlen : 4 * n ≤ (inp.drop 4).length := by
      rw [List.length_drop]
      omega
    simp only [bulkLoop, if_pos h4]
    obtain ⟨f1, f2, f3, f4⟩ := ih (i + 1)
      (strip.set i (applyBrightness bright
        ⟨byteAt inp 0, byteAt inp 1, byteAt inp 2, byteAt inp 3⟩))
      (inp.drop 4) hlen
    refine ⟨f1, ?_, ?_, ?_⟩
    · rw [f2, List.drop_drop]
      congr 1
      omega
    · intro j hj
      rw [f3 j (by omega)]
      exact List.getElem?_set_ne (by omega)
    · intro k hk hklen
      rcases k with _ | k
      · rw [show i + 0 = i by omega, f3 i (by omega)]
        have hi : i < strip.length := by omega
        simp [List.getElem?_set_self hi]
      · rw [show i + (k + 1) = (i + 1) + k by omega]
        rw [f4 k (by omega) (by rw [List.length_set]; omega)]
        simp only [byteAt_drop]
        rw [show 4 + 4 * k = 4 * (k + 1) by omega,
          show 4 + (4 * k + 1) = 4 * (k + 1) + 1 by omega,
          show 4 + (4 * k + 2) = 4 * (k + 1) + 2 by omega,
          show 4 + (4 * k + 3) = 4 * (k + 1) + 3 by omega]

/-- C3: bulk_update with a count above the LED count answers OutOfRange
immediately, consuming the two count bytes but no pixel payload byte and
changing nothing; with the count within range (and the payload present,
which models every quadruple arriving before its per-quadruple deadline)
it answers with an early OK and a final OK, consumes exactly `4*count`
payload bytes, writes quadruple `k` brightness-scaled at index `k` for
`k < count`, leaves indices at or beyond `count` unchanged, and commits
exactly once. -/
theorem c3_bulk_update (s : EngineState) (count : Nat) (payload : List Nat)
    (hinit : s.stripInitialized = true) (hc16 : count < 65536) :
    (s.ledCount < count →
      processCommand 0x55 s (count / 256 :: count % 256 :: payload) =
        (s, payload, [.err .outOfRange])) ∧
    (count ≤ s.ledCount → 4 * count ≤ payload.length →
      (processCommand 0x55 s (count / 256 :: count % 256 :: payload)).2.2 =
          [.ok, .ok] ∧
      (processCommand 0x55 s (count / 256 :: count % 256 :: payload)).2.1 =
          payload.drop (4 * count) ∧
      (processCommand 0x55 s (count / 256 :: count % 256 :: payload)).1.commits =
          s.commits + 1 ∧
      (∀ k, k < count → k < s.strip.length →
        (processCommand 0x55 s (count / 256 :: count % 256 :: payload)).1.strip[k]? =
          some (applyBrightness s.globalBrightness
            ⟨byteAt payload (4 * k), byteAt payload (4 * k + 1),
             byteAt payload (4 * k + 2), byteAt payload (4 * k + 3)⟩)) ∧
      (∀ j, count ≤ j →
        (processCommand 0x55 s (count / 256 :: count % 256 :: payload)).1.strip[j]? =
          s.strip[j]?)) := by
  have e := word16_encode count hc16 payload
  constructor
  · intro hgt
    simp [processCommand, cmdBulkUpdate, e, hinit, hgt]
  · intro hle hpl
    obtain ⟨f1, f2, f3, f4⟩ := bulkLoop_spec s.globalBrightness count 0 s.strip payload hpl
    have hstep : processCommand 0x55 s (count / 256 :: count % 256 :: payload) =
        ({ s with strip := (bulkLoop s.globalBrightness 0 count s.strip payload).2.1,
                  commits := s.commits + 1 },
         (bulkLoop s.globalBrightness 0 count s.strip payload).2.2, [.ok, .ok]) := by
      simp only [processCommand, cmdBulkUpdate, e, hinit]
      norm_num
      rw [if_neg (by omega)]
      simp [f1]
    rw [hstep]
    refine ⟨rfl, f2, rfl, ?_, ?_⟩
    · intro k hk hklen
      simpa using f4 k hk (by omega)
    · intro j hj
      simpa using f3 j (by omega)

/-- Closed instance of `c3_bulk_update`: the out-of-range branch at a
small state with a nonempty unconsumed payload. -/
theorem c3_witness :
    processCommand 0x55 testState (9 / 256 :: 9 % 256 :: [1, 2, 3, 4]) =
      (testState, [1, 2, 3, 4], [.err .outOfRange]) :=
  (c3_bulk_update testState 9 [1, 2, 3, 4] rfl (by decide)).1 (by decide)

/-- The specification-side interpolation formula for one channel:
`A + (B - A) * i / (end - start)` with truncating (toward-zero) integer
division on the unscaled wire values. -/
def interpSpec (a b i steps : Nat) : Nat :=
  ((a : Int) + Int.tdiv (((b : Int) - (a : Int)) * (i : Int)) (steps : Int)).toNat

lemma word16_shift2 (a b : Nat) (l : List Nat) (i : Nat) :
    word16 (a :: b :: l) (i + 2) = word16 l i := by
  simp [word16, byteAt]

/-- The Arduino `map` over one channel stays within the byte range for
offsets inside the span. -/
lemma mapArduino_bounds (a b i steps : Nat) (ha : a < 256) (hb : b < 256)
    (hi : i ≤ steps) (hs : 0 < steps) :
    0 ≤ mapArduino i 0 steps a b ∧ mapArduino i 0 steps a b < 256 := by
  unfold mapArduino
  rcases le_or_lt a b with hab | hab
  · have h1 : ((i : Int) - 0) * ((b : Int) - (a : Int)) = ((i * (b - a) : Nat) : Int) := by
      rw [Nat.cast_mul, Nat.cast_sub hab]
      ring
    have h2 : ((steps : Int) - 0) = ((steps : Nat) : Int) := by ring
    rw [h1, h2, ← Int.ofNat_tdiv]
    have h3 : i * (b - a) / steps ≤ b - a := by
      calc i * (b - a) / steps ≤ steps * (b - a) / steps :=
            Nat.div_le_div_right (Nat.mul_le_mul_right _ hi)
        _ = b - a := Nat.mul_div_cancel_left _ hs
    generalize i * (b - a) / steps = x at h3 ⊢
    omega
  · have hba : b ≤ a := Nat.le_of_lt hab
    have h1 : ((i : Int) - 0) * ((b : Int) - (a : Int)) =
        -(((i * (a - b) : Nat) : Int)) := by
      rw [Nat.cast_mul, Nat.cast_sub hba]
      ring
    have h2 : ((steps : Int) - 0) = ((steps : Nat) : Int) := by ring
    rw [h1, h2, Int.neg_tdiv, ← Int.ofNat_tdiv]
    have h3 : i * (a - b) / steps ≤ a - b := by
      calc i * (a - b) / steps ≤ steps * (a - b) / steps :=
            Nat.div_le_div_right (Nat.mul_le_mul_right _ hi)
        _ = a - b := Nat.mul_div_cancel_left _ hs
    generalize i * (a - b) / steps = x at h3 ⊢
    omega

/-- For in-span offsets the `map`-then-truncate-to-byte computation of
the gradient equals the specification formula on one channel. -/
lemma toByte_mapArduino (a b i steps : Nat) (ha : a < 256) (hb : b < 256)
    (hi : i ≤ steps) (hs : 0 < steps) :
    toByte (mapArduino i 0 steps a b) = interpSpec a b i steps := by
  obtain ⟨h0, h256⟩ := mapArduino_bounds a b i steps ha hb hi hs
  unfold toByte
  rw [Int.emod_eq_of_lt h0 h256]
  unfold mapArduino interpSpec
  rw [Int.sub_zero, Int.sub_zero, mul_comm ((i : Int)) ((b : Int) - (a : Int)),
    Int.add_comm]

lemma gradColor_eq_interpSpec (c1 c2 : RGBW) (i steps : Nat)
    (h1 : c1.wf) (h2 : c2.wf) (hi : i ≤ steps) (hs : 0 < steps) :
    gradColor c1 c2 i steps =
      ⟨interpSpec c1.r c2.r i steps, interpSpec c1.g c2.g i steps,
       interpSpec c1.b c2.b i steps, interpSpec c1.w c2.w i steps⟩ := by
  obtain ⟨a1, a2, a3, a4⟩ := h1
  obtain ⟨b1, b2, b3, b4⟩ := h2
  unfold gradColor
  rw [if_pos hs, toByte_mapArduino _ _ _ _ a1 b1 hi hs,
    toByte_mapArduino _ _ _ _ a2 b2 hi hs, toByte_mapArduino _ _ _ _ a3 b3 hi hs,
    toByte_mapArduino _ _ _ _ a4 b4 hi hs]

/-- Pointwise characterization of the gradient write loop: `n` writes
starting at `start + i` set each touched index to the brightness-scaled
interpolated color and touch nothing else. -/
lemma gradWrite_spec (bright : Nat) (c1 c2 : RGBW) (start steps : Nat) :
    ∀ (n i : Nat) (strip : List RGBW),
      (∀ j, (j < start + i ∨ start + i + n ≤ j) →
        (gradWrite bright c1 c2 start steps i n strip)[j]? = strip[j]?) ∧
      (∀ k, k < n → start + i + k < strip.length →
        (gradWrite bright c1 c2 start steps i n strip)[start + i + k]? =
          some (applyBrightness bright (gradColor c1 c2 (i + k) steps))) := by
  intro n
  induction n with
  | zero =>
    intro i strip
    simp [gradWrite]
  | succ n ih =>
    intro i strip
    simp only [gradWrite]
    obtain ⟨f1, f2⟩ := ih (i + 1)
      (strip.set (start + i) (applyBrightness bright (gradColor c1 c2 i steps)))
    constructor
    · intro j hj
      rw [f1 j (by omega)]
      exact List.getElem?_set_ne (by omega)
    · intro k hk hklen
      rcases k with _ | k
      · rw [show start + i + 0 = start + i by omega, f1 (start + i) (by omega)]
        simp [List.getElem?_set_self (show start + i < strip.length by omega)]
      · rw [show start + i + (k + 1) = start + (i + 1) + k by omega]
        rw [f2 k (by omega) (by rw [List.length_set]; omega)]
        rw [show i + 1 + k = i + (k + 1) by omega]

/-- C5: for a valid range `start ≤ end < count`, fill_gradient answers OK
and writes at each offset `i` of the inclusive range the per-channel value
`A + (B - A) * i / (end - start)` computed with truncating integer
division on the unscaled wire values, brightness-scaled exactly once
afterwards; when `start = end` it writes colorA (scaled) regardless of
colorB with no division by zero; indices outside the range are
unchanged. -/
theorem c5_fill_gradient (s : EngineState) (start stop : Nat) (cA cB : RGBW)
    (hinit : s.stripInitialized = true) (hlen : s.strip.length = s.ledCount)
    (hse : start ≤ stop) (hstop : stop < s.ledCount) (h16 : stop < 65536)
    (hA : cA.wf) (hB : cB.wf) :
    (processCommand 0x70 s
        [start / 256, start % 256, stop / 256, stop % 256,
         cA.r, cA.g, cA.b, cA.w, cB.r, cB.g, cB.b, cB.w]).2.2 = [.ok] ∧
    (start < stop → ∀ i, i ≤ stop - start →
      (processCommand 0x70 s
          [start / 256, start % 256, stop / 256, stop % 256,
           cA.r, cA.g, cA.b, cA.w, cB.r, cB.g, cB.b, cB.w]).1.strip[start + i]? =
        some (applyBrightness s.globalBrightness
          ⟨interpSpec cA.r cB.r i (stop - start), interpSpec cA.g cB.g i (stop - start),
           interpSpec cA.b cB.b i (stop - start),
           interpSpec cA.w cB.w i (stop - start)⟩)) ∧
    (start = stop →
      (processCommand 0x70 s
          [start / 256, start % 256, stop / 256, stop % 256,
           cA.r, cA.g, cA.b, cA.w, cB.r, cB.g, cB.b, cB.w]).1.strip[start]? =
        some (applyBrightness s.globalBrightness cA)) ∧
    (∀ j, j < start ∨ stop < j →
      (processCommand 0x70 s
          [start / 256, start % 256, stop / 256, stop % 256,
           cA.r, cA.g, cA.b, cA.w, cB.r, cB.g, cB.b, cB.w]).1.strip[j]? =
        s.strip[j]?) := by
  obtain ⟨a1, a2, a3, a4⟩ := hA
  obtain ⟨b1, b2, b3, b4⟩ := hB
  have e0 : word16 [start / 256, start % 256, stop / 256, stop % 256,
      cA.r, cA.g, cA.b, cA.w, cB.r, cB.g, cB.b, cB.w] 0 = start :=
    word16_encode start (by omega) _
  have e2 : word16 [start / 256, start % 256, stop / 256, stop % 256,
      cA.r, cA.g, cA.b, cA.w, cB.r, cB.g, cB.b, cB.w] 2 = stop := by
    have := word16_shift2 (start / 256) (start % 256)
      (stop / 256 :: stop % 256 :: [cA.r, cA.g, cA.b, cA.w, cB.r, cB.g, cB.b, cB.w]) 0
    rw [this]
    exact word16_encode stop h16 _
  have hstep : processCommand 0x70 s
      [start / 256, start % 256, stop / 256, stop % 256,
       cA.r, cA.g, cA.b, cA.w, cB.r, cB.g, cB.b, cB.w] =
      ({ s with strip := gradWrite s.globalBrightness cA cB start (stop - start)
                  0 (stop - start + 1) s.strip,
                commits := s.commits + 1 }, [], [.ok]) := by
    simp [processCommand, cmdFillGradient, e0, e2, hinit, byteAt,
      Nat.mod_eq_of_lt a1, Nat.mod_eq_of_lt a2, Nat.mod_eq_of_lt a3, Nat.mod_eq_of_lt a4,
      Nat.mod_eq_of_lt b1, Nat.mod_eq_of_lt b2, Nat.mod_eq_of_lt b3, Nat.mod_eq_of_lt b4,
      show start < s.ledCount by omega, hstop, hse]
  obtain ⟨g1, g2⟩ := gradWrite_spec s.globalBrightness cA cB start (stop - start)
    (stop - start + 1) 0 s.strip
  rw [hstep]
  refine ⟨rfl, ?_, ?_, ?_⟩
  · intro hlt i hi
    have := g2 i (by omega) (by omega)
    rw [show start + i = start + 0 + i by omega]
    rw [this, show 0 + i = i by omega]
    rw [gradColor_eq_interpSpec cA cB i (stop - start) ⟨a1, a2, a3, a4⟩
      ⟨b1, b2, b3, b4⟩ hi (by omega)]
  · intro heq
    have h00 := g2 0 (by omega) (by omega)
    rw [show start + 0 + 0 = start by omega] at h00
    rw [h00]
    simp [gradColor, show stop - start = 0 by omega]
  · intro j hj
    exact g1 j (by omega)

/-- Closed instance of `c5_fill_gradient` at a small initialized state. -/
theorem c5_witness :
    (processCommand 0x70 testState
        [0 / 256, 0 % 256, 2 / 256, 2 % 256, 0, 0, 0, 0, 10, 20, 30, 40]).2.2 =
      [Resp.ok] :=
  (c5_fill_gradient testState 0 2 ⟨0, 0, 0, 0⟩ ⟨10, 20, 30, 40⟩ rfl (by decide)
    (by decide) (by decide) (by decide) (by decide) (by decide)).1

lemma mk_mod_eq_self (c : RGBW) (hc : c.wf) :
    (⟨c.r % 256, c.g % 256, c.b % 256, c.w % 256⟩ : RGBW) = c := by
  obtain ⟨h1, h2, h3, h4⟩ := hc
  simp [Nat.mod_eq_of_lt h1, Nat.mod_eq_of_lt h2, Nat.mod_eq_of_lt h3,
    Nat.mod_eq_of_lt h4]

/-- C6: after stream_start with count 5 on an initialized store with at
least 5 LEDs, five stream_data commands write their brightness-scaled
colors at indices 0, 1, 2, 3, 4 — exactly once each, in call order — and
each answers OK; a sixth stream_data before stream_end answers OutOfRange
and writes nothing; no stream_data (nor the stream_start) commits to
hardware, as the unchanged `commits` field of the resulting state
records. -/
theorem c6_stream_round_trip (s : EngineState) (c1 c2 c3 c4 c5 c6 : RGBW)
    (hinit : s.stripInitialized = true) (h5 : 5 ≤ s.ledCount)
    (w1 : c1.wf) (w2 : c2.wf) (w3 : c3.wf) (w4 : c4.wf) (w5 : c5.wf) :
    runSeq s [(0x50, [0, 5]), (0x51, c1.pl), (0x51, c2.pl), (0x51, c3.pl),
              (0x51, c4.pl), (0x51, c5.pl), (0x51, c6.pl)] =
      ({ s with
         strip := ((((s.strip.set 0 (applyBrightness s.globalBrightness c1)).set 1
                      (applyBrightness s.globalBrightness c2)).set 2
                      (applyBrightness s.globalBrightness c3)).set 3
                      (applyBrightness s.globalBrightness c4)).set 4
                      (applyBrightness s.globalBrightness c5),
         streamMode := true, streamIndex := 5, streamCount := 5 },
       [.ok, .ok, .ok, .ok, .ok, .ok, .err .outOfRange]) := by
  have h0 : 0 < s.ledCount := by omega
  have h1 : 1 < s.ledCount := by omega
  have h2 : 2 < s.ledCount := by omega
  have h3 : 3 < s.ledCount := by omega
  have h4 : 4 < s.ledCount := by omega
  simp [runSeq, processCommand, cmdStreamStart, cmdStreamData, word16, byteAt,
    RGBW.pl, hinit, h0, h1, h2, h3, h4,
    mk_mod_eq_self c1 w1, mk_mod_eq_self c2 w2, mk_mod_eq_self c3 w3,
    mk_mod_eq_self c4 w4, mk_mod_eq_self c5 w5]

/-- Closed instance of `c6_stream_round_trip` at a small state. -/
theorem c6_witness :
    runSeq testState [(0x50, [0, 5]), (0x51, (⟨1, 0, 0, 0⟩ : RGBW).pl),
        (0x51, (⟨2, 0, 0, 0⟩ : RGBW).pl), (0x51, (⟨3, 0, 0, 0⟩ : RGBW).pl),
        (0x51, (⟨4, 0, 0, 0⟩ : RGBW).pl), (0x51, (⟨5, 0, 0, 0⟩ : RGBW).pl),
        (0x51, (⟨6, 0, 0, 0⟩ : RGBW).pl)] =
      ({ testState with
         strip := ((((testState.strip.set 0
                  (applyBrightness testState.globalBrightness ⟨1, 0, 0, 0⟩)).set 1
                  (applyBrightness testState.globalBrightness ⟨2, 0, 0, 0⟩)).set 2
                  (applyBrightness testState.globalBrightness ⟨3, 0, 0, 0⟩)).set 3
                  (applyBrightness testState.globalBrightness ⟨4, 0, 0, 0⟩)).set 4
                  (applyBrightness testState.globalBrightness ⟨5, 0, 0, 0⟩),
         streamMode := true, streamIndex := 5, streamCount := 5 },
       [.ok, .ok, .ok, .ok, .ok, .ok, .err .outOfRange]) :=
  c6_stream_round_trip testState ⟨1, 0, 0, 0⟩ ⟨2, 0, 0, 0⟩ ⟨3, 0, 0, 0⟩
    ⟨4, 0, 0, 0⟩ ⟨5, 0, 0, 0⟩ ⟨6, 0, 0, 0⟩ rfl (by decide) (by decide) (by decide)
    (by decide) (by decide) (by decide)

/-- A small initialized state with an open stream session. -/
def streamState : EngineState :=
  { ledCount := 3, ledPin := 6, stripInitialized := true,
    strip := List.replicate 3 RGBW.off, commits := 0, globalBrightness := 255,
    cmdBufferPos := 0, streamMode := true, streamIndex := 0, streamCount := 3 }

/-- C10 counterexample: stream_data (0x51), which is neither stream_start
(0x50) nor stream_end (0x52), modifies the stream session state — it
advances the cursor — so stream_start and stream_end are not the only
commands that modify the session variables. -/
theorem c10_cex :
    (0x51 : Nat) ≠ 0x50 ∧ (0x51 : Nat) ≠ 0x52 ∧
    (processCommand 0x51 streamState [1, 2, 3, 4]).2.2 = [Resp.ok] ∧
    (processCommand 0x51 streamState [1, 2, 3, 4]).1.streamIndex = 1 ∧
    streamState.streamIndex = 0 := by decide

/-! Stream-session preservation of every non-stream handler. -/

lemma ss_setLedCount (s : EngineState) (inp : List Nat) :
    (cmdSetLedCount s inp).1.streamMode = s.streamMode ∧
    (cmdSetLedCount s inp).1.streamIndex = s.streamIndex ∧
    (cmdSetLedCount s inp).1.streamCount = s.streamCount := by
  simp only [cmdSetLedCount]
  split_ifs <;> exact ⟨rfl, rfl, rfl⟩

lemma ss_setLedPin (s : EngineState) (inp : List Nat) :
    (cmdSetLedPin s inp).1.streamMode = s.streamMode ∧
    (cmdSetLedPin s inp).1.streamIndex = s.streamIndex ∧
    (cmdSetLedPin s inp).1.streamCount = s.streamCount := by
  simp only [cmdSetLedPin]
  split_ifs <;> exact ⟨rfl, rfl, rfl⟩

lemma ss_setPixelRGBW (s : EngineState) (inp : List Nat) :
    (cmdSetPixelRGBW s inp).1.streamMode = s.streamMode ∧
    (cmdSetPixelRGBW s inp).1.streamIndex = s.streamIndex ∧
    (cmdSetPixelRGBW s inp).1.streamCount = s.streamCount := by
  simp only [cmdSetPixelRGBW]
  split_ifs <;> exact ⟨rfl, rfl, rfl⟩

lemma ss_setPixelRGB (s : EngineState) (inp : List Nat) :
    (cmdSetPixelRGB s inp).1.streamMode = s.streamMode ∧
    (cmdSetPixelRGB s inp).1.streamIndex = s.streamIndex ∧
    (cmdSetPixelRGB s inp).1.streamCount = s.streamCount := by
  simp only [cmdSetPixelRGB]
  split_ifs <;> exact ⟨rfl, rfl, rfl⟩

lemma ss_setPixelW (s : EngineState) (inp : List Nat) :
    (cmdSetPixelW s inp).1.streamMode = s.streamMode ∧
    (cmdSetPixelW s inp).1.streamIndex = s.streamIndex ∧
    (cmdSetPixelW s inp).1.streamCount = s.streamCount := by
  simp only [cmdSetPixelW]
  split_ifs <;> exact ⟨rfl, rfl, rfl⟩

lemma ss_setRange (s : EngineState) (inp : List Nat) :
    (cmdSetRangeRGBW s inp).1.streamMode = s.streamMode ∧
    (cmdSetRangeRGBW s inp).1.streamIndex = s.streamIndex ∧
    (cmdSetRangeRGBW s inp).1.streamCount = s.streamCount := by
  simp only [cmdSetRangeRGBW]
  split_ifs <;> exact ⟨rfl, rfl, rfl⟩

lemma ss_setAll (s : EngineState) (inp : List Nat) :
    (cmdSetAllRGBW s inp).1.streamMode = s.streamMode ∧
    (cmdSetAllRGBW s inp).1.streamIndex = s.streamIndex ∧
    (cmdSetAllRGBW s inp).1.streamCount = s.streamCount := by
  simp only [cmdSetAllRGBW]
  split_ifs <;> exact ⟨rfl, rfl, rfl⟩

lemma ss_clearAll (s : EngineState) (inp : List Nat) :
    (cmdClearAll s inp).1.streamMode = s.streamMode ∧
    (cmdClearAll s inp).1.streamIndex = s.streamIndex ∧
    (cmdClearAll s inp).1.streamCount = s.streamCount := by
  simp only [cmdClearAll]
  split_ifs <;> exact ⟨rfl, rfl, rfl⟩

lemma ss_bufferPixel (s : EngineState) (inp : List Nat) :
    (cmdBufferPixel s inp).1.streamMode = s.streamMode ∧
    (cmdBufferPixel s inp).1.streamIndex = s.streamIndex ∧
    (cmdBufferPixel s inp).1.streamCount = s.streamCount := by
  simp only [cmdBufferPixel]
  split_ifs <;> exact ⟨rfl, rfl, rfl⟩

lemma ss_bufferEnd (s : EngineState) (inp : List Nat) :
    (cmdBufferEnd s inp).1.streamMode = s.streamMode ∧
    (cmdBufferEnd s inp).1.streamIndex = s.streamIndex ∧
    (cmdBufferEnd s inp).1.streamCount = s.streamCount := by
  simp only [cmdBufferEnd]
  split_ifs <;> exact ⟨rfl, rfl, rfl⟩

lemma ss_bulkUpdate (s : EngineState) (inp : List Nat) :
    (cmdBulkUpdate s inp).1.streamMode = s.streamMode ∧
    (cmdBulkUpdate s inp).1.streamIndex = s.streamIndex ∧
    (cmdBulkUpdate s inp).1.streamCount = s.streamCount := by
  simp only [cmdBulkUpdate]
  split_ifs <;> exact ⟨rfl, rfl, rfl⟩

lemma ss_fillGradient (s : EngineState) (inp : List Nat) :
    (cmdFillGradient s inp).1.streamMode = s.streamMode ∧
    (cmdFillGradient s inp).1.streamIndex = s.streamIndex ∧
    (cmdFillGradient s inp).1.streamCount = s.streamCount := by
  simp only [cmdFillGradient]
  split_ifs <;> exact ⟨rfl, rfl, rfl⟩

lemma ss_setBrightness (s : EngineState) (inp : List Nat) :
    (cmdSetBrightness s inp).1.streamMode = s.streamMode ∧
    (cmdSetBrightness s inp).1.streamIndex = s.streamIndex ∧
    (cmdSetBrightness s inp).1.streamCount = s.streamCount := by
  simp only [cmdSetBrightness]
  split_ifs <;> exact ⟨rfl, rfl, rfl⟩

/-- C10 (amended): only the three stream commands — stream_start (0x50),
stream_data (0x51) and stream_end (0x52) — can modify the stream session
state; every other command byte, including reset and init_strip which
recreate the pixel store, leaves the active flag, the cursor and the
expected count unchanged, so an active stream session survives any
interleaved non-stream command and even a store reinitialization. -/
theorem c10_stream_session_isolation (cmd : Nat) (s : EngineState) (inp : List Nat)
    (h50 : cmd ≠ 0x50) (h51 : cmd ≠ 0x51) (h52 : cmd ≠ 0x52) :
    (processCommand cmd s inp).1.streamMode = s.streamMode ∧
    (processCommand cmd s inp).1.streamIndex = s.streamIndex ∧
    (processCommand cmd s inp).1.streamCount = s.streamCount := by
  by_cases e1 : cmd = 0x01
  · subst e1; exact ⟨rfl, rfl, rfl⟩
  by_cases e2 : cmd = 0x02
  · subst e2; exact ⟨rfl, rfl, rfl⟩
  by_cases e3 : cmd = 0x03
  · subst e3; exact ⟨rfl, rfl, rfl⟩
  by_cases e4 : cmd = 0x10
  · subst e4; exact ss_setLedCount s inp
  by_cases e5 : cmd = 0x11
  · subst e5; exact ss_setLedPin s inp
  by_cases e6 : cmd = 0x12
  · subst e6; exact ⟨rfl, rfl, rfl⟩
  by_cases e7 : cmd = 0x20
  · subst e7; exact ss_setPixelRGBW s inp
  by_cases e8 : cmd = 0x21
  · subst e8; exact ss_setPixelRGB s inp
  by_cases e9 : cmd = 0x22
  · subst e9; exact ss_setPixelW s inp
  by_cases e10 : cmd = 0x30
  · subst e10; exact ss_setRange s inp
  by_cases e11 : cmd = 0x31
  · subst e11; exact ss_setAll s inp
  by_cases e12 : cmd = 0x32
  · subst e12; exact ss_clearAll s inp
  by_cases e13 : cmd = 0x40
  · subst e13; exact ⟨rfl, rfl, rfl⟩
  by_cases e14 : cmd = 0x41
  · subst e14; exact ss_bufferPixel s inp
  by_cases e15 : cmd = 0x42
  · subst e15; exact ss_bufferEnd s inp
  by_cases e19 : cmd = 0x55
  · subst e19; exact ss_bulkUpdate s inp
  by_cases e20 : cmd = 0x60
  · subst e20
    simp only [processCommand]
    norm_num
    split_ifs <;> simp
  by_cases e21 : cmd = 0x70
  · subst e21; exact ss_fillGradient s inp
  by_cases e22 : cmd = 0x71
  · subst e22; exact ss_setBrightness s inp
  simp only [processCommand, if_neg e1, if_neg e2, if_neg e3, if_neg e4, if_neg e5,
    if_neg e6, if_neg e7, if_neg e8, if_neg e9, if_neg e10, if_neg e11, if_neg e12,
    if_neg e13, if_neg e14, if_neg e15, if_neg h50, if_neg h51, if_neg h52,
    if_neg e19, if_neg e20, if_neg e21, if_neg e22]
  exact ⟨by trivial, by trivial, by trivial⟩

/-- Closed instance of `c10_stream_session_isolation`: a reset during an
open stream session leaves the session variables intact. -/
theorem c10_witness :
    (processCommand 0x03 streamState []).1.streamMode = streamState.streamMode ∧
    (processCommand 0x03 streamState []).1.streamIndex = streamState.streamIndex ∧
    (processCommand 0x03 streamState []).1.streamCount = streamState.streamCount :=
  c10_stream_session_isolation 0x03 streamState [] (by decide) (by decide)
    (by decide)

end DreamScaler
